import Mathlib

/-!
Verification of the automaker repository's Auto-Mode orchestration core and
its Gemini CLI provider, as a shallow embedding in Lean 4.

The pure logic of `apps/server/src/providers/gemini-provider.ts` (argv
construction, event normalization, tool-input normalization, error
classification, session-id propagation, abort handling) is translated into
executable Lean definitions.  The Auto-Mode Service's running-feature table
and loop guard, whose implementation file is not part of the sampled
sources, are modelled from the specification and verified against it.
-/

namespace Automaker

/-! ## String helpers (JavaScript semantics) -/

/-- ASCII lower-casing of one character, as `String.prototype.toLowerCase`
behaves on the ASCII range used by the error heuristics. -/
def lowerChar (c : Char) : Char :=
  if 'A' ≤ c ∧ c ≤ 'Z' then Char.ofNat (c.toNat + 32) else c

/-- ASCII lower-casing of a string (model of `stderr.toLowerCase()`). -/
def lowerStr (s : String) : String :=
  String.mk (s.data.map lowerChar)

/-- Does the character list start with the given pattern? -/
def listHasPre : List Char → List Char → Bool
  | [], _ => true
  | _ :: _, [] => false
  | p :: ps, c :: cs => p == c && listHasPre ps cs

/-- Does the character list contain the pattern as a contiguous run? -/
def listHasSub (needle : List Char) : List Char → Bool
  | [] => listHasPre needle []
  | c :: cs => listHasPre needle (c :: cs) || listHasSub needle cs

/-- Substring containment (model of `String.prototype.includes`). -/
def hasSub (hay needle : String) : Bool :=
  listHasSub needle.data hay.data

/-- JavaScript truthiness of a `string | undefined` value: defined and
non-empty. -/
def truthy : Option String → Bool
  | none => false
  | some s => s != ""

/-! ## Tool input model

`normalizeGeminiToolInput` in gemini-provider.ts handles objects of the
shape `{"todos": [{"description": ..., "status": ...}]}` and produces
`{"todos": [{"content": ..., "status": ..., "activeForm": ...}]}`.  One
record type carries both shapes; fields absent from a given shape are
`none`.  `extra` stands for any other parameters of a tool call, carried
through opaquely. -/

structure TodoItem where
  description : Option String := none
  status : Option String := none
  content : Option String := none
  activeForm : Option String := none
deriving DecidableEq

structure ToolParams where
  todos : Option (List TodoItem) := none
  extra : List (String × String) := []
deriving DecidableEq

/-- `GEMINI_TOOL_NAME_MAP` lookup with fallthrough to the original name
(gemini-provider.ts, `normalizeGeminiToolName`). -/
def normalizeGeminiToolName (geminiToolName : String) : String :=
  match geminiToolName with
  | "write_todos" => "TodoWrite"
  | "read_file" => "Read"
  | "read_many_files" => "Read"
  | "replace" => "Edit"
  | "write_file" => "Write"
  | "run_shell_command" => "Bash"
  | "search_file_content" => "Grep"
  | "glob" => "Glob"
  | "list_directory" => "Ls"
  | "web_fetch" => "WebFetch"
  | "google_web_search" => "WebSearch"
  | other => other

/-- The per-todo mapping inside `normalizeGeminiToolInput`:
`content` and `activeForm` both receive `todo.description || ''`, and the
status `cancelled` is collapsed to `completed`. -/
def normalizeTodo (todo : TodoItem) : TodoItem :=
  { description := none
    content := some (todo.description.getD "")
    status := if todo.status = some "cancelled" then some "completed" else todo.status
    activeForm := some (todo.description.getD "") }

/-- `normalizeGeminiToolInput` from gemini-provider.ts: the `write_todos`
payload is rebuilt (as a fresh object holding only `todos`), every other
tool's input is returned unchanged. -/
def normalizeGeminiToolInput (toolName : String) (input : ToolParams) : ToolParams :=
  if toolName = "write_todos" then
    match input.todos with
    | some ts => { todos := some (ts.map normalizeTodo), extra := [] }
    | none => input
  else input

/-! ## CLI argv construction -/

/-- The slice of `ExecuteOptions` that `buildCliArgs`/`executeQuery` read:
`model` and `cwd` are optional strings, `prompt` is the extracted prompt
text (`extractPromptText` is the identity on string prompts). -/
structure ExecuteOptions where
  model : Option String := none
  cwd : Option String := none
  prompt : String := ""
deriving DecidableEq

/-- `options.model || '2.5-flash'` (JavaScript `||`: the fallback is used
when the model is undefined or the empty string). -/
def bareModelOf (model : Option String) : String :=
  match model with
  | some s => if s = "" then "2.5-flash" else s
  | none => "2.5-flash"

/-- `GeminiProvider.buildCliArgs`: `--output-format stream-json`, then
`--model` with the `gemini-` prefix re-added unless the model is empty or
`auto`, then `--sandbox false --approval-mode yolo`, then
`--include-directories` when a working directory is set. -/
def buildCliArgs (options : ExecuteOptions) : List String :=
  let bareModel := bareModelOf options.model
  let modelArgs :=
    if bareModel ≠ "" ∧ bareModel ≠ "auto" then
      ["--model", if bareModel.startsWith "gemini-" then bareModel else "gemini-" ++ bareModel]
    else []
  let dirArgs :=
    match options.cwd with
    | some c => if c ≠ "" then ["--include-directories", c] else []
    | none => []
  ["--output-format", "stream-json"] ++ modelArgs
    ++ ["--sandbox", "false", "--approval-mode", "yolo"] ++ dirArgs

/-- The argv `executeQuery` passes to the spawner: `buildCliArgs` plus the
prompt text appended as the last positional argument. -/
def geminiArgv (options : ExecuteOptions) : List String :=
  buildCliArgs options ++ [options.prompt]

/-- Follows the spec's words (section 6, CLI surface): the exact invocation
`--output-format stream-json --model <id> --sandbox false --approval-mode
yolo --include-directories <cwd> <promptText>`, where `<id>` is the bare
model id with the `gemini-` prefix re-added when not already present. -/
def specGeminiArgv (modelId cwd promptText : String) : List String :=
  ["--output-format", "stream-json", "--model",
    if modelId.startsWith "gemini-" then modelId else "gemini-" ++ modelId,
    "--sandbox", "false", "--approval-mode", "yolo",
    "--include-directories", cwd, promptText]

/-! ## Error classification -/

/-- `GeminiErrorCode` enum from gemini-provider.ts. -/
inductive GeminiErrorCode where
  | NOT_INSTALLED
  | NOT_AUTHENTICATED
  | RATE_LIMITED
  | MODEL_UNAVAILABLE
  | NETWORK_ERROR
  | PROCESS_CRASHED
  | TIMEOUT
  | UNKNOWN
deriving DecidableEq

/-- `CliErrorInfo` as returned by `mapError`. -/
structure CliErrorInfo where
  code : GeminiErrorCode
  message : String
  recoverable : Bool
  suggestion : Option String := none
deriving DecidableEq

/-- First heuristic group of `mapError` (authentication failures). -/
def geminiAuthMatch (lower : String) : Bool :=
  hasSub lower "not authenticated" || hasSub lower "please log in" ||
  hasSub lower "unauthorized" || hasSub lower "login required" ||
  hasSub lower "error authenticating" || hasSub lower "loadcodeassist" ||
  (hasSub lower "econnrefused" && hasSub lower "8888")

/-- Second heuristic group of `mapError` (rate limiting). -/
def geminiRateMatch (lower : String) : Bool :=
  hasSub lower "rate limit" || hasSub lower "too many requests" ||
  hasSub lower "429" || hasSub lower "quota exceeded"

/-- Third heuristic group of `mapError` (model availability). -/
def geminiModelMatch (lower : String) : Bool :=
  hasSub lower "model not available" || hasSub lower "invalid model" ||
  hasSub lower "unknown model" || hasSub lower "modelnotfounderror" ||
  hasSub lower "model not found" ||
  (hasSub lower "not found" && hasSub lower "404")

/-- Fourth heuristic group of `mapError` (network conditions, including the
`timeout` substring). -/
def geminiNetworkMatch (lower : String) : Bool :=
  hasSub lower "network" || hasSub lower "connection" ||
  hasSub lower "econnrefused" || hasSub lower "timeout"

/-- Fifth heuristic group of `mapError` (crashed or killed process). -/
def geminiCrashMatch (lower : String) (exitCode : Option Int) : Bool :=
  exitCode == some 137 || hasSub lower "killed" || hasSub lower "sigterm"

/-- Rendering of `exitCode` in the fallback message (a JavaScript template
literal prints `null` for a null exit code). -/
def exitCodeStr : Option Int → String
  | some n => toString n
  | none => "null"

/-- `GeminiProvider.mapError`: case-insensitive substring heuristics tried
in order, falling back to `UNKNOWN`/non-recoverable. -/
def mapError (stderr : String) (exitCode : Option Int) : CliErrorInfo :=
  let lower := lowerStr stderr
  if geminiAuthMatch lower then
    { code := GeminiErrorCode.NOT_AUTHENTICATED
      message := "Gemini CLI is not authenticated"
      recoverable := true
      suggestion := some "Run \"gemini\" interactively to log in, or set GEMINI_API_KEY environment variable" }
  else if geminiRateMatch lower then
    { code := GeminiErrorCode.RATE_LIMITED
      message := "Gemini API rate limit exceeded"
      recoverable := true
      suggestion := some "Wait a few minutes and try again. Free tier: 60 req/min, 1000 req/day" }
  else if geminiModelMatch lower then
    { code := GeminiErrorCode.MODEL_UNAVAILABLE
      message := "Requested model is not available"
      recoverable := true
      suggestion := some "Try using \"gemini-2.5-flash\" or select a different model" }
  else if geminiNetworkMatch lower then
    { code := GeminiErrorCode.NETWORK_ERROR
      message := "Network connection error"
      recoverable := true
      suggestion := some "Check your internet connection and try again" }
  else if geminiCrashMatch lower exitCode then
    { code := GeminiErrorCode.PROCESS_CRASHED
      message := "Gemini CLI process was terminated"
      recoverable := true
      suggestion := some "The process may have run out of memory. Try a simpler task." }
  else
    { code := GeminiErrorCode.UNKNOWN
      message := if stderr ≠ "" then stderr else "Gemini CLI exited with code " ++ exitCodeStr exitCode
      recoverable := false
      suggestion := none }

/-! ## Stream events and normalization -/

/-- One parsed line of the Gemini CLI's stream-json output, as the duck-typed
object `executeQuery`/`normalizeEvent` read it: a `type` tag plus the fields
of the per-type interfaces (`GeminiInitEvent`, `GeminiMessageEvent`,
`GeminiToolUseEvent`, `GeminiToolResultEvent`, `GeminiResultEvent`).
`session_id` and `error` are optional in those interfaces; the other fields
default to the empty value when the event kind does not carry them. -/
structure RawGeminiEvent where
  type : String
  session_id : Option String := none
  model : String := ""
  role : String := ""
  content : String := ""
  tool_id : String := ""
  tool_name : String := ""
  parameters : ToolParams := {}
  status : String := ""
  output : String := ""
  error : Option String := none
deriving DecidableEq

/-- Content blocks of a normalized assistant message (`ContentBlock` in
providers/types.ts, restricted to the variants the Gemini provider emits). -/
inductive ContentBlock where
  | text (text : String)
  | tool_use (name : String) (tool_use_id : String) (input : ToolParams)
  | tool_result (tool_use_id : String) (content : String)
deriving DecidableEq

/-- The body of a `ProviderMessage` (the variant minus its session id). -/
inductive MessageBody where
  | assistant (content : List ContentBlock)
  | result_success
  | error (error : String)
deriving DecidableEq

/-- Normalized `ProviderMessage`: a variant plus an optional `session_id`. -/
structure ProviderMessage where
  body : MessageBody
  session_id : Option String
deriving DecidableEq

/-- `GeminiProvider.normalizeEvent`: the switch over the event's `type` tag.
`init` events and user messages map to null; unknown tags fall through the
default arm to null. -/
def normalizeEvent (e : RawGeminiEvent) : Option ProviderMessage :=
  if e.type = "init" then none
  else if e.type = "message" then
    if e.role = "user" then none
    else if e.role = "assistant" then
      some { body := MessageBody.assistant [ContentBlock.text e.content]
             session_id := e.session_id }
    else none
  else if e.type = "tool_use" then
    some { body := MessageBody.assistant
             [ContentBlock.tool_use (normalizeGeminiToolName e.tool_name) e.tool_id
               (normalizeGeminiToolInput e.tool_name e.parameters)]
           session_id := e.session_id }
  else if e.type = "tool_result" then
    some { body := MessageBody.assistant
             [ContentBlock.tool_result e.tool_id
               (if e.status = "error" then "[ERROR] " ++ e.output else e.output)]
           session_id := e.session_id }
  else if e.type = "result" then
    if e.status = "error" then
      some { body := MessageBody.error (e.error.getD "Unknown error")
             session_id := e.session_id }
    else
      some { body := MessageBody.result_success, session_id := e.session_id }
  else if e.type = "error" then
    some { body := MessageBody.error (e.error.getD "Unknown error")
           session_id := e.session_id }
  else none

/-- The documented Gemini stream event tags (`GeminiStreamEvent.type`). -/
def geminiEventTags : List String :=
  ["init", "message", "tool_use", "tool_result", "result", "error"]

/-! ## The executeQuery stream loop

`executeQuery` folds over the raw events: an `init` event overwrites the
captured session id; each normalized message lacking a (truthy) session id
receives the captured one before being yielded. -/

/-- Session-capture step: `if (event.type === 'init') sessionId = event.session_id`. -/
def nextSession (st : Option String) (e : RawGeminiEvent) : Option String :=
  if e.type = "init" then e.session_id else st

/-- `if (!normalized.session_id && sessionId) normalized.session_id = sessionId`. -/
def withSession (m : ProviderMessage) (st : Option String) : ProviderMessage :=
  if !truthy m.session_id && truthy st then { m with session_id := st } else m

/-- Captured session id after consuming a list of raw events. -/
def execState (st : Option String) : List RawGeminiEvent → Option String
  | [] => st
  | e :: rest => execState (nextSession st e) rest

/-- Messages yielded by the `executeQuery` loop from a given captured
session id over a list of raw events. -/
def execGo (st : Option String) : List RawGeminiEvent → List ProviderMessage
  | [] => []
  | e :: rest =>
    let st' := nextSession st e
    match normalizeEvent e with
    | none => execGo st' rest
    | some m => withSession m st' :: execGo st' rest

/-- All messages yielded by one `executeQuery` call over a raw event list
(the captured session id starts out undefined). -/
def execMessages (events : List RawGeminiEvent) : List ProviderMessage :=
  execGo none events

/-! ## Stream outcome and error surfacing -/

/-- How the underlying `spawnJSONLProcess` stream ends: normally, via the
abort signal, with a failure object carrying a `stderr` property, or with
some other thrown error. -/
inductive StreamOutcome where
  | normalEnd
  | aborted
  | failed (stderr : Option String) (message : String) (exitCode : Option Int)
  | other (message : String)
deriving DecidableEq

/-- What `executeQuery` raises: a typed `GeminiError` built from `mapError`,
or the original error rethrown. -/
inductive QueryError where
  | gemini (code : GeminiErrorCode) (message : String) (recoverable : Bool)
      (suggestion : Option String)
  | rethrown (message : String)
deriving DecidableEq

/-- The try/catch around the `executeQuery` stream loop: an abort ends the
generator normally (`return`), a failure carrying `stderr` is classified by
`mapError` (`error.stderr || error.message`, `error.exitCode ?? null`) and
raised as a typed `GeminiError`, anything else is rethrown. -/
def executeQueryRun (events : List RawGeminiEvent) (outcome : StreamOutcome) :
    Except QueryError (List ProviderMessage) :=
  match outcome with
  | StreamOutcome.normalEnd => Except.ok (execMessages events)
  | StreamOutcome.aborted => Except.ok (execMessages events)
  | StreamOutcome.failed stderr message exitCode =>
    let info := mapError (if truthy stderr then stderr.getD "" else message) exitCode
    Except.error (QueryError.gemini info.code info.message info.recoverable info.suggestion)
  | StreamOutcome.other message => Except.error (QueryError.rethrown message)

/-! ## Authentication check -/

/-- Outcome of probing `~/.gemini/settings.json`: the file may be absent
(`fs.access` throws), unreadable/unparseable, or parsed with an optional
`security.auth.selectedType` value. -/
inductive SettingsProbe where
  | absent
  | unparseable
  | parsed (selectedType : Option String)
deriving DecidableEq

/-- The environment `checkAuth` reads: the detected CLI path, whether
`GEMINI_API_KEY` is set (truthy), whether `GOOGLE_APPLICATION_CREDENTIALS`
or `GOOGLE_CLOUD_PROJECT` is set, and the settings-file probe. -/
structure GeminiEnv where
  cliPath : Option String
  envApiKey : Bool
  envVertex : Bool
  settings : SettingsProbe
deriving DecidableEq

/-- `GeminiAuthStatus` (libs/types): authenticated flag, method string, and
the optional diagnostic fields. -/
structure GeminiAuthStatus where
  authenticated : Bool
  method : String
  hasApiKey : Option Bool := none
  hasEnvApiKey : Option Bool := none
  hasCredentialsFile : Option Bool := none
  error : Option String := none
deriving DecidableEq

/-- Settings-file digest inside `checkAuth`: `hasCredentialsFile` and
`authType` are set only when the parsed file has a truthy
`security.auth.selectedType`. -/
def settingsAuth (probe : SettingsProbe) : Bool × Option String :=
  match probe with
  | SettingsProbe.parsed (some t) => if t ≠ "" then (true, some t) else (false, none)
  | _ => (false, none)

/-- `GeminiProvider.checkAuth`: precedence is API key env var, then Vertex
AI credentials, then the settings file's configured auth type, then
unauthenticated. -/
def checkAuth (env : GeminiEnv) : GeminiAuthStatus :=
  match env.cliPath with
  | none => { authenticated := false, method := "none" }
  | some _ =>
    let hasApiKey := env.envApiKey
    let hasEnvApiKey := hasApiKey
    let hasVertexAi := env.envVertex
    let probe := settingsAuth env.settings
    let hasCredentialsFile := probe.1
    let authType := probe.2
    if hasApiKey then
      { authenticated := true, method := "api_key"
        hasApiKey := some hasApiKey, hasEnvApiKey := some hasEnvApiKey
        hasCredentialsFile := some hasCredentialsFile }
    else if hasVertexAi then
      { authenticated := true, method := "vertex_ai"
        hasApiKey := some hasApiKey, hasEnvApiKey := some hasEnvApiKey
        hasCredentialsFile := some hasCredentialsFile }
    else if hasCredentialsFile ∧ authType.isSome then
      let t := authType.getD ""
      if t.startsWith "oauth" then
        { authenticated := true, method := "google_login"
          hasApiKey := some hasApiKey, hasEnvApiKey := some hasEnvApiKey
          hasCredentialsFile := some hasCredentialsFile }
      else if t = "api-key" then
        { authenticated := true, method := "api_key"
          hasApiKey := some hasApiKey, hasEnvApiKey := some hasEnvApiKey
          hasCredentialsFile := some hasCredentialsFile }
      else if t = "code-assist" ∨ t = "codeassist" then
        { authenticated := false, method := "google_login"
          hasApiKey := some hasApiKey, hasEnvApiKey := some hasEnvApiKey
          hasCredentialsFile := some hasCredentialsFile
          error := some "Code Assist authentication requires IDE integration. Please use \"gemini\" CLI to log in with a different method, or set GEMINI_API_KEY." }
      else
        { authenticated := true, method := "google_login"
          hasApiKey := some hasApiKey, hasEnvApiKey := some hasEnvApiKey
          hasCredentialsFile := some hasCredentialsFile }
    else
      { authenticated := false, method := "none"
        hasApiKey := some hasApiKey, hasEnvApiKey := some hasEnvApiKey
        hasCredentialsFile := some hasCredentialsFile
        error := some "No authentication configured. Run \"gemini\" interactively to log in, or set GEMINI_API_KEY." }

/-! ## Auto-Mode Service (spec-modelled)

The `AutoModeService` implementation file is not among the sampled sources;
only its unit tests are.  The running-feature table, the loop guard, and
`getRunningAgents` below are modelled from the specification (sections 3,
4.3 and 5) and checked against the behaviours the unit tests pin down. -/

/-- `RunningFeatureEntry` (spec section 3): ephemeral in-memory record of
one in-flight execution. -/
structure RunningFeatureEntry where
  featureId : String
  projectPath : String
  isAutoMode : Bool
deriving DecidableEq

/-- Modelled from the spec: registration of a `RunningFeatureEntry` in the
`runningFeatures` table.  Spec section 5 requires the map-membership check
to be atomic with the insertion (no suspension point between them), so the
two are one step: an entry is added only when its `featureId` is absent. -/
def registerFeature (t : List RunningFeatureEntry) (e : RunningFeatureEntry) :
    List RunningFeatureEntry :=
  if t.any (fun x => x.featureId == e.featureId) then t else e :: t

/-- Modelled from the spec: removal of a feature's entry when its execution
reaches a terminal state or is force-stopped. -/
def deregisterFeature (t : List RunningFeatureEntry) (fid : String) :
    List RunningFeatureEntry :=
  t.filter (fun x => x.featureId != fid)

/-- The reachable states of the `runningFeatures` table: it starts empty,
and every mutation is an atomic register or deregister step, in any
interleaving (spec section 5: these are the only mutations of the sole
piece of shared mutable state). -/
inductive ReachableTable : List RunningFeatureEntry → Prop where
  | empty : ReachableTable []
  | register (t : List RunningFeatureEntry) (e : RunningFeatureEntry)
      (h : ReachableTable t) : ReachableTable (registerFeature t e)
  | deregister (t : List RunningFeatureEntry) (fid : String)
      (h : ReachableTable t) : ReachableTable (deregisterFeature t fid)

/-- Auto-Mode Service state relevant to the loop guard. -/
structure AutoModeState where
  autoLoopRunning : Bool
  runningFeatures : List RunningFeatureEntry
deriving DecidableEq

/-- Modelled from the spec: `startAutoLoop` fails with an "already running"
condition when a loop is already active, leaving the state untouched;
otherwise it marks the loop active.  The result pairs the synchronous
outcome with the successor state. -/
def startAutoLoop (s : AutoModeState) (projectPath : String) (maxConcurrency : Nat) :
    Except String Unit × AutoModeState :=
  if s.autoLoopRunning then (Except.error "Auto mode is already running", s)
  else (Except.ok (), { s with autoLoopRunning := true })

/-- Feature data used to enrich a running agent (title/description from the
feature store). -/
structure FeatureInfo where
  title : Option String := none
  description : Option String := none
deriving DecidableEq

/-- One element of the `getRunningAgents` result. -/
structure RunningAgent where
  featureId : String
  projectPath : String
  projectName : String
  isAutoMode : Bool
  title : Option String := none
  description : Option String := none
deriving DecidableEq

/-- Modelled from the spec: `projectName` is derived as the final path
segment of `projectPath`. -/
def lastPathSegment (p : String) : String :=
  ((p.splitOn "/").filter (fun s => s ≠ "")).getLastD ""

/-- Modelled from the spec: enrichment of one running entry.  The feature
lookup may throw or return null; both degrade to an agent without title and
description, and no exception escapes. -/
def toRunningAgent (lookup : String → String → Except String (Option FeatureInfo))
    (e : RunningFeatureEntry) : RunningAgent :=
  let enriched :=
    match lookup e.projectPath e.featureId with
    | Except.ok (some f) => (f.title, f.description)
    | Except.ok none => (none, none)
    | Except.error _ => (none, none)
  { featureId := e.featureId
    projectPath := e.projectPath
    projectName := lastPathSegment e.projectPath
    isAutoMode := e.isAutoMode
    title := enriched.1
    description := enriched.2 }

/-- Modelled from the spec: `getRunningAgents` is a snapshot read over the
running-feature entries, enriching each one best-effort. -/
def getRunningAgents (entries : List RunningFeatureEntry)
    (lookup : String → String → Except String (Option FeatureInfo)) :
    List RunningAgent :=
  entries.map (toRunningAgent lookup)

/-! ## Helper lemmas -/

/-- The `featureId` keys of every reachable running-feature table are
pairwise distinct. -/
theorem reachable_keys_nodup (t : List RunningFeatureEntry) (h : ReachableTable t) :
    (t.map (fun x => x.featureId)).Nodup := by
  induction h with
  | empty => simp
  | register t e _ ih =>
    by_cases hmem : t.any (fun x => x.featureId == e.featureId) = true
    · simpa [registerFeature, hmem] using ih
    · rw [registerFeature, if_neg hmem, List.map_cons, List.nodup_cons]
      refine ⟨?_, ih⟩
      intro hin
      rcases List.mem_map.mp hin with ⟨y, hy, hye⟩
      exact hmem (List.any_eq_true.mpr ⟨y, hy, beq_iff_eq.mpr hye⟩)
  | deregister t fid _ ih =>
    exact ih.sublist (List.Sublist.map _ (List.filter_sublist t))

/-- In a list whose keys are pairwise distinct, at most one element carries
any given key. -/
theorem nodup_filter_key_le_one (t : List RunningFeatureEntry)
    (h : (t.map (fun x => x.featureId)).Nodup) (fid : String) :
    (t.filter (fun x => x.featureId == fid)).length ≤ 1 := by
  induction t with
  | nil => simp
  | cons x xs ih =>
    rw [List.map_cons, List.nodup_cons] at h
    by_cases hx : x.featureId == fid
    · have hnil : xs.filter (fun y => y.featureId == fid) = [] := by
        refine List.filter_eq_nil_iff.mpr ?_
        intro y hy hyfid
        apply h.1
        refine List.mem_map.mpr ⟨y, hy, ?_⟩
        have h1 : x.featureId = fid := beq_iff_eq.mp hx
        have h2 : y.featureId = fid := beq_iff_eq.mp hyfid
        rw [h2, h1]
      simp [List.filter_cons, hx, hnil]
    · simpa [List.filter_cons, hx] using ih h.2

/-- `init` events normalize to null (they only update the captured session). -/
theorem normalizeEvent_init (e : RawGeminiEvent) (h : e.type = "init") :
    normalizeEvent e = none := by
  simp [normalizeEvent, h]

/-- The `executeQuery` loop splits over list concatenation, threading the
captured session id. -/
theorem execGo_append (xs ys : List RawGeminiEvent) : ∀ st,
    execGo st (xs ++ ys) = execGo st xs ++ execGo (execState st xs) ys := by
  induction xs with
  | nil => intro st; simp [execGo, execState]
  | cons e rest ih =>
    intro st
    rw [List.cons_append, execGo, execGo, execState]
    cases hne : normalizeEvent e with
    | none => simpa using ih (nextSession st e)
    | some m => simpa using ih (nextSession st e)

/-- Once the captured session id is truthy, and every `init` event in the
remaining stream carries a truthy session id, every message the loop yields
from there on has a truthy session id. -/
theorem execGo_truthy_session (events : List RawGeminiEvent) : ∀ st,
    truthy st = true →
    (∀ ev ∈ events, ev.type = "init" → truthy ev.session_id = true) →
    ∀ m ∈ execGo st events, truthy m.session_id = true := by
  induction events with
  | nil => intro st _ _ m hm; simp [execGo] at hm
  | cons e rest ih =>
    intro st hst hwf m hm
    have hst' : truthy (nextSession st e) = true := by
      by_cases he : e.type = "init"
      · simpa [nextSession, he] using hwf e (by simp) he
      · simpa [nextSession, he] using hst
    have hwf' : ∀ ev ∈ rest, ev.type = "init" → truthy ev.session_id = true := by
      intro ev hev; exact hwf ev (by simp [hev])
    rw [execGo] at hm
    cases hne : normalizeEvent e with
    | none =>
      rw [hne] at hm
      exact ih (nextSession st e) hst' hwf' m hm
    | some msg =>
      rw [hne] at hm
      rcases List.mem_cons.mp hm with h1 | h2
      · subst h1
        unfold withSession
        by_cases hcond : (!truthy msg.session_id && truthy (nextSession st e)) = true
        · simpa [hcond] using hst'
        · rw [if_neg hcond]
          cases hmsg : truthy msg.session_id with
          | true => rfl
          | false => exact absurd (by simp [hmsg, hst']) hcond
      · exact ih (nextSession st e) hst' hwf' m h2

/-! ## Claim theorems -/

/-- C1: every reachable state of the Auto-Mode Service's running-feature
table maps each `featureId` to at most one `RunningFeatureEntry`
(single-flight per feature), under any interleaving of atomic register and
deregister steps. -/
theorem runningFeatures_single_flight (t : List RunningFeatureEntry)
    (h : ReachableTable t) (fid : String) :
    (t.filter (fun x => x.featureId == fid)).length ≤ 1 :=
  nodup_filter_key_le_one t (reachable_keys_nodup t h) fid

/-- Witness for C1: a table reached by registering the same feature twice
and a second feature once still holds at most one entry for it. -/
theorem runningFeatures_single_flight_witness :
    ((registerFeature
        (registerFeature (registerFeature [] ⟨"feat-1", "/proj/a", true⟩)
          ⟨"feat-2", "/proj/b", false⟩)
        ⟨"feat-1", "/proj/a", true⟩).filter
      (fun x => x.featureId == "feat-1")).length ≤ 1 :=
  runningFeatures_single_flight _
    (ReachableTable.register _ ⟨"feat-1", "/proj/a", true⟩
      (ReachableTable.register _ ⟨"feat-2", "/proj/b", false⟩
        (ReachableTable.register _ ⟨"feat-1", "/proj/a", true⟩ ReachableTable.empty)))
    "feat-1"

/-- C2 counterexample: with the model id `auto` and a working directory
set, the argv omits the `--model` pair entirely, so it is not the exact
argv the claim states. -/
theorem buildCliArgs_auto_counterexample :
    geminiArgv { model := some "auto", cwd := some "/proj", prompt := "hi" }
      ≠ specGeminiArgv "auto" "/proj" "hi" := by
  decide

/-- C2 (amended): for every execution options value whose model id is
non-empty and not the sentinel `auto`, and whose working directory is
non-empty, `buildCliArgs` with the prompt appended yields exactly
`--output-format stream-json --model <id> --sandbox false --approval-mode
yolo --include-directories <cwd> <promptText>`, where `<id>` is the bare
model id with the `gemini-` prefix re-added when not already present. -/
theorem buildCliArgs_exact (m c p : String) (hm1 : m ≠ "") (hm2 : m ≠ "auto")
    (hc : c ≠ "") :
    geminiArgv { model := some m, cwd := some c, prompt := p }
      = specGeminiArgv m c p := by
  simp [geminiArgv, buildCliArgs, bareModelOf, specGeminiArgv, hm1, hm2, hc]

/-- Witness for C2's amended theorem at a concrete bare model id and
working directory. -/
theorem buildCliArgs_exact_witness :
    geminiArgv { model := some "2.5-pro", cwd := some "/w", prompt := "do" }
      = specGeminiArgv "2.5-pro" "/w" "do" :=
  buildCliArgs_exact "2.5-pro" "/w" "do" (by decide) (by decide) (by decide)

/-- C3: `normalizeEvent` is total — every raw event maps to a concrete
`ProviderMessage` or to null — and every event whose type tag lies outside
the documented set `{init, message, tool_use, tool_result, result, error}`
maps to null. -/
theorem normalizeEvent_total (e : RawGeminiEvent) :
    (normalizeEvent e = none ∨ ∃ m, normalizeEvent e = some m)
  ∧ (e.type ∉ geminiEventTags → normalizeEvent e = none) := by
  constructor
  · cases h : normalizeEvent e with
    | none => exact Or.inl rfl
    | some m => exact Or.inr ⟨m, rfl⟩
  · intro h
    simp only [geminiEventTags, List.mem_cons, List.mem_singleton] at h
    push_neg at h
    obtain ⟨h1, h2, h3, h4, h5, h6⟩ := h
    simp [normalizeEvent, h1, h2, h3, h4, h5, h6]

/-- Witness for C3 at an undocumented type tag. -/
theorem normalizeEvent_total_witness :
    normalizeEvent { type := "thought" } = none :=
  (normalizeEvent_total { type := "thought" }).2 (by decide)

/-- C4: within one `executeQuery` call over a stream whose `init` events
carry (truthy) session ids, once an `init` event has been consumed every
subsequently yielded `ProviderMessage` carries a session id — the yielded
suffix after the `init` event consists only of messages with truthy
session ids. -/
theorem executeQuery_session_propagation (pre post : List RawGeminiEvent)
    (e : RawGeminiEvent)
    (hwf : ∀ ev ∈ pre ++ e :: post, ev.type = "init" → truthy ev.session_id = true)
    (he : e.type = "init") :
    execMessages (pre ++ e :: post)
      = execGo none pre ++ execGo (execState none pre) (e :: post)
  ∧ ∀ m ∈ execGo (execState none pre) (e :: post), truthy m.session_id = true := by
  constructor
  · exact execGo_append pre (e :: post) none
  · intro m hm
    have hsid : truthy e.session_id = true := hwf e (by simp) he
    rw [execGo] at hm
    rw [normalizeEvent_init e he] at hm
    have hst' : truthy (nextSession (execState none pre) e) = true := by
      simpa [nextSession, he] using hsid
    exact execGo_truthy_session post _ hst'
      (fun ev hev => hwf ev (by simp [hev])) m hm

/-- Witness for C4 on a concrete stream: one assistant message before the
init event, one after. -/
theorem executeQuery_session_propagation_witness :
    execMessages ([{ type := "message", role := "assistant", content := "before" }]
        ++ ({ type := "init", session_id := some "sess-1" } : RawGeminiEvent)
          :: [{ type := "message", role := "assistant", content := "after" }])
      = execGo none [{ type := "message", role := "assistant", content := "before" }]
        ++ execGo
            (execState none [{ type := "message", role := "assistant", content := "before" }])
            (({ type := "init", session_id := some "sess-1" } : RawGeminiEvent)
              :: [{ type := "message", role := "assistant", content := "after" }])
  ∧ ∀ m ∈ execGo
        (execState none [{ type := "message", role := "assistant", content := "before" }])
        (({ type := "init", session_id := some "sess-1" } : RawGeminiEvent)
          :: [{ type := "message", role := "assistant", content := "after" }]),
      truthy m.session_id = true :=
  executeQuery_session_propagation
    [{ type := "message", role := "assistant", content := "before" }]
    [{ type := "message", role := "assistant", content := "after" }]
    { type := "init", session_id := some "sess-1" }
    (by decide) (by decide)

/-- C5: an aborted stream ends the message sequence normally (no error and
no `mapError` classification), while every stream failure carrying a
`stderr` property surfaces as a typed `GeminiError` rather than the raw
error. -/
theorem executeQuery_abort_and_failure (events : List RawGeminiEvent)
    (stderr : Option String) (msg : String) (ec : Option Int) :
    executeQueryRun events StreamOutcome.aborted = Except.ok (execMessages events)
  ∧ ∃ c m r s, executeQueryRun events (StreamOutcome.failed stderr msg ec)
      = Except.error (QueryError.gemini c m r s) :=
  ⟨rfl, ⟨_, _, _, _, rfl⟩⟩

/-- C6: `write_todos` is renamed `TodoWrite`; its todos each map
`description` to both `content` and `activeForm` (empty string when
absent), `cancelled` collapses to `completed` while the three common
states pass through; every other tool's input is returned unchanged. -/
theorem geminiToolInput_normalization :
    normalizeGeminiToolName "write_todos" = "TodoWrite"
  ∧ (∀ (input : ToolParams) (ts : List TodoItem), input.todos = some ts →
      (normalizeGeminiToolInput "write_todos" input).todos = some (ts.map normalizeTodo))
  ∧ (∀ t : TodoItem,
        (normalizeTodo t).content = some (t.description.getD "")
      ∧ (normalizeTodo t).activeForm = some (t.description.getD "")
      ∧ (t.description = none →
          (normalizeTodo t).content = some "" ∧ (normalizeTodo t).activeForm = some "")
      ∧ (t.status = some "cancelled" → (normalizeTodo t).status = some "completed")
      ∧ (t.status = some "pending" → (normalizeTodo t).status = some "pending")
      ∧ (t.status = some "in_progress" → (normalizeTodo t).status = some "in_progress")
      ∧ (t.status = some "completed" → (normalizeTodo t).status = some "completed"))
  ∧ (∀ (name : String) (input : ToolParams), name ≠ "write_todos" →
      normalizeGeminiToolInput name input = input) := by
  refine ⟨rfl, ?_, ?_, ?_⟩
  · intro input ts h
    simp [normalizeGeminiToolInput, h]
  · intro t
    refine ⟨rfl, rfl, ?_, ?_, ?_, ?_, ?_⟩
    · intro h; simp [normalizeTodo, h]
    · intro h; simp [normalizeTodo, h]
    · intro h; simp [normalizeTodo, h]
    · intro h; simp [normalizeTodo, h]
    · intro h; simp [normalizeTodo, h]
  · intro name input hn
    simp [normalizeGeminiToolInput, hn]

/-- Witness for C6 on a concrete cancelled todo and a non-todo tool. -/
theorem geminiToolInput_normalization_witness :
    (normalizeGeminiToolInput "write_todos"
        { todos := some [{ description := some "Task", status := some "cancelled" }] }).todos
      = some ([{ description := some "Task", status := some "cancelled" }].map normalizeTodo)
  ∧ (normalizeTodo { description := some "Task", status := some "cancelled" }).status
      = some "completed"
  ∧ normalizeGeminiToolInput "read_file" { todos := none } = { todos := none } :=
  ⟨geminiToolInput_normalization.2.1 _ _ rfl,
   (geminiToolInput_normalization.2.2.1 _).2.2.2.1 rfl,
   geminiToolInput_normalization.2.2.2 "read_file" { todos := none } (by decide)⟩

/-- C7: when a loop is already active, a second `startAutoLoop` call fails
synchronously with the "already running" condition and leaves the service
state — including the first call's loop — untouched. -/
theorem startAutoLoop_already_running (s : AutoModeState) (projectPath : String)
    (maxConcurrency : Nat) (h : s.autoLoopRunning = true) :
    (startAutoLoop s projectPath maxConcurrency).1
      = Except.error "Auto mode is already running"
  ∧ (startAutoLoop s projectPath maxConcurrency).2 = s := by
  simp [startAutoLoop, h]

/-- Witness for C7 at a concrete active state. -/
theorem startAutoLoop_already_running_witness :
    (startAutoLoop { autoLoopRunning := true, runningFeatures := [] } "/test/project" 3).1
      = Except.error "Auto mode is already running"
  ∧ (startAutoLoop { autoLoopRunning := true, runningFeatures := [] } "/test/project" 3).2
      = { autoLoopRunning := true, runningFeatures := [] } :=
  startAutoLoop_already_running { autoLoopRunning := true, runningFeatures := [] }
    "/test/project" 3 (by decide)

/-- C8: `getRunningAgents` never drops an entry or propagates a lookup
exception — every running entry appears in the result, a throwing or null
lookup degrades that entry to undefined title/description, and every
returned agent's `projectName` is the final path segment of its
`projectPath`. -/
theorem getRunningAgents_graceful (entries : List RunningFeatureEntry)
    (lookup : String → String → Except String (Option FeatureInfo)) :
    (getRunningAgents entries lookup).length = entries.length
  ∧ (∀ e ∈ entries, toRunningAgent lookup e ∈ getRunningAgents entries lookup
      ∧ (toRunningAgent lookup e).featureId = e.featureId
      ∧ (toRunningAgent lookup e).projectPath = e.projectPath
      ∧ (toRunningAgent lookup e).isAutoMode = e.isAutoMode)
  ∧ (∀ e ∈ entries, ∀ err, lookup e.projectPath e.featureId = Except.error err →
      (toRunningAgent lookup e).title = none
      ∧ (toRunningAgent lookup e).description = none)
  ∧ (∀ e ∈ entries, lookup e.projectPath e.featureId = Except.ok none →
      (toRunningAgent lookup e).title = none
      ∧ (toRunningAgent lookup e).description = none)
  ∧ (∀ a ∈ getRunningAgents entries lookup,
      a.projectName = lastPathSegment a.projectPath) := by
  refine ⟨List.length_map _ _, ?_, ?_, ?_, ?_⟩
  · intro e he
    exact ⟨List.mem_map_of_mem _ he, rfl, rfl, rfl⟩
  · intro e _ err hl
    simp [toRunningAgent, hl]
  · intro e _ hl
    simp [toRunningAgent, hl]
  · intro a ha
    rcases List.mem_map.mp ha with ⟨e, _, rfl⟩
    rfl

/-- Witness for C8 with one entry whose lookup throws. -/
theorem getRunningAgents_graceful_witness :
    (toRunningAgent (fun _ _ => Except.error "Database connection failed")
        ⟨"feature-error", "/project-error", true⟩
      ∈ getRunningAgents [⟨"feature-error", "/project-error", true⟩]
          (fun _ _ => Except.error "Database connection failed"))
  ∧ (toRunningAgent (fun _ _ => Except.error "Database connection failed")
      ⟨"feature-error", "/project-error", true⟩).title = none
  ∧ (toRunningAgent (fun _ _ => Except.error "Database connection failed")
      ⟨"feature-error", "/project-error", true⟩).description = none :=
  ⟨((getRunningAgents_graceful [⟨"feature-error", "/project-error", true⟩]
      (fun _ _ => Except.error "Database connection failed")).2.1
     ⟨"feature-error", "/project-error", true⟩ (by decide)).1,
   ((getRunningAgents_graceful [⟨"feature-error", "/project-error", true⟩]
      (fun _ _ => Except.error "Database connection failed")).2.2.1
     ⟨"feature-error", "/project-error", true⟩ (by decide)
     "Database connection failed" rfl).1,
   ((getRunningAgents_graceful [⟨"feature-error", "/project-error", true⟩]
      (fun _ _ => Except.error "Database connection failed")).2.2.1
     ⟨"feature-error", "/project-error", true⟩ (by decide)
     "Database connection failed" rfl).2⟩

/-- C9: with the CLI detected and `GEMINI_API_KEY` set, `checkAuth` reports
authenticated with method `api_key`, regardless of the Vertex AI
environment and of the `~/.gemini/settings.json` contents. -/
theorem checkAuth_api_key_precedence (p : String) (vertex : Bool)
    (probe : SettingsProbe) :
    (checkAuth { cliPath := some p, envApiKey := true, envVertex := vertex
                 settings := probe }).authenticated = true
  ∧ (checkAuth { cliPath := some p, envApiKey := true, envVertex := vertex
                 settings := probe }).method = "api_key" := by
  simp [checkAuth]

/-- C10: `mapError` never yields the `TIMEOUT` or `NOT_INSTALLED` codes; a
stderr containing `timeout` that matched none of the earlier heuristic
groups classifies as `NETWORK_ERROR`; and a stderr matching no heuristic at
all falls back to `UNKNOWN` with `recoverable = false`. -/
theorem mapError_taxonomy :
    (∀ (stderr : String) (ec : Option Int),
        (mapError stderr ec).code ≠ GeminiErrorCode.TIMEOUT
      ∧ (mapError stderr ec).code ≠ GeminiErrorCode.NOT_INSTALLED)
  ∧ (∀ (stderr : String) (ec : Option Int),
        hasSub (lowerStr stderr) "timeout" = true →
        geminiAuthMatch (lowerStr stderr) = false →
        geminiRateMatch (lowerStr stderr) = false →
        geminiModelMatch (lowerStr stderr) = false →
        (mapError stderr ec).code = GeminiErrorCode.NETWORK_ERROR)
  ∧ (∀ (stderr : String) (ec : Option Int),
        geminiAuthMatch (lowerStr stderr) = false →
        geminiRateMatch (lowerStr stderr) = false →
        geminiModelMatch (lowerStr stderr) = false →
        geminiNetworkMatch (lowerStr stderr) = false →
        geminiCrashMatch (lowerStr stderr) ec = false →
        (mapError stderr ec).code = GeminiErrorCode.UNKNOWN
      ∧ (mapError stderr ec).recoverable = false) := by
  refine ⟨?_, ?_, ?_⟩
  · intro stderr ec
    cases h1 : geminiAuthMatch (lowerStr stderr) <;>
    cases h2 : geminiRateMatch (lowerStr stderr) <;>
    cases h3 : geminiModelMatch (lowerStr stderr) <;>
    cases h4 : geminiNetworkMatch (lowerStr stderr) <;>
    cases h5 : geminiCrashMatch (lowerStr stderr) ec <;>
    simp [mapError, h1, h2, h3, h4, h5]
  · intro stderr ec ht ha hr hm
    simp [mapError, ha, hr, hm, geminiNetworkMatch, ht]
  · intro stderr ec ha hr hm hn hc
    simp [mapError, ha, hr, hm, hn, hc]

/-- Witness for C10: a timeout-bearing stderr classifies as a network
error, and an unmatched stderr falls back to non-recoverable `UNKNOWN`. -/
theorem mapError_taxonomy_witness :
    (mapError "request timeout" (some 1)).code = GeminiErrorCode.NETWORK_ERROR
  ∧ (mapError "mysterious failure" none).code = GeminiErrorCode.UNKNOWN
  ∧ (mapError "mysterious failure" none).recoverable = false :=
  ⟨mapError_taxonomy.2.1 "request timeout" (some 1)
      (by decide) (by decide) (by decide) (by decide),
   (mapError_taxonomy.2.2 "mysterious failure" none
      (by decide) (by decide) (by decide) (by decide) (by decide)).1,
   (mapError_taxonomy.2.2 "mysterious failure" none
      (by decide) (by decide) (by decide) (by decide) (by decide)).2⟩

end Automaker
